import Mathlib

/-!
Shallow embedding of `src/components/admin/AssignmentManagement.tsx`.

The component manages an assignment list over a remote store with three
collections (`courses`, `assignments`, `submissions`).  We model:

* the records of the three collections (`Course`, `Assignment`, `Submission`);
* the component's React state (`ComponentState`: `assignments`, `courses`,
  `isLoading`) and the creation-form state (`NewAssignment`);
* `fetchData` (the aggregation pipeline run in `useEffect`): course-scope
  resolution, per-course assignment fetch with `course_title` enrichment,
  per-assignment submission counting, and the final descending sort by
  `created_at`;
* `handleCreateAssignment`, `handlePointsChange`, `handleDeleteAssignment`;
* the "Active" filter used when rendering the first card.

Remote fetches can fail (Firebase `get`/`push`/`remove` throwing inside the
`try` blocks); failure is injected through an oracle `fails : FetchOp → Bool`
for the read pipeline and through explicit `Bool` flags for the write
handlers.  Toast notifications are modelled by the `Notice` type.  ISO
timestamp strings are modelled as `Option Nat` (milliseconds since the
epoch; `none` is a missing/empty value, which is falsy in JavaScript).
-/

/-- A record of the `courses` collection: `{ id, title, instructor_id }`. -/
structure Course where
  id : String
  title : String
  instructor_id : String
deriving DecidableEq

/-- A record of the `assignments` collection. `due_date` and `created_at`
are date strings in the source, possibly absent or empty (both falsy); we
model them as `Option Nat` timestamps with `none` for a falsy value. -/
structure Assignment where
  id : String
  title : String
  description : String
  course_id : String
  due_date : Option Nat
  points : Int
  created_at : Option Nat
  created_by : String
deriving DecidableEq

/-- A record of the `submissions` collection; only `assignment_id` is read. -/
structure Submission where
  id : String
  assignment_id : String
deriving DecidableEq

/-- The remote store: the three Firebase collections. -/
structure Store where
  courses : List Course
  assignments : List Assignment
  submissions : List Submission
deriving DecidableEq

/-- An assignment as accumulated by the enrichment loop (lines 65-84):
the fetched record plus `course_title` copied from the parent course. -/
structure TitledAssignment where
  base : Assignment
  course_title : String
deriving DecidableEq

/-- An assignment after the submission-counting loop (lines 86-105):
the enriched record plus `submissions_count`. -/
structure EnrichedAssignment where
  base : Assignment
  course_title : String
  submissions_count : Nat
deriving DecidableEq

/-- The component's React state relevant to the pipeline:
`assignments`, `courses`, `isLoading`. -/
structure ComponentState where
  assignments : List EnrichedAssignment
  courses : List Course
  isLoading : Bool
deriving DecidableEq

/-- The initial component state: `useState([])`, `useState([])`,
`useState(true)`. -/
def initialComponentState : ComponentState :=
  { assignments := [], courses := [], isLoading := true }

/-- The acting user from `useAuth`: `{ id, role }`. -/
structure User where
  id : String
  role : String
deriving DecidableEq

/-- Toast notifications issued by the component. -/
inductive Notice where
  | loadError
  | validationError
  | createSuccess
  | createError
  | deleteSuccess
  | deleteError
deriving DecidableEq

/-- The remote reads the pipeline performs, for failure injection:
the course query, one assignment query per course id, one submission
query per assignment id. -/
inductive FetchOp where
  | coursesFetch
  | assignmentsFetch (courseId : String)
  | submissionsFetch (assignmentId : String)

/-- Step 1, lines 47-49: for role `teacher` the course query is
filtered by `instructor_id == user.id`; any other role reads the whole
`courses` collection. -/
def courseScope (u : User) (store : Store) : List Course :=
  if u.role = "teacher" then
    store.courses.filter (fun c => c.instructor_id = u.id)
  else
    store.courses

/-- One iteration of the enrichment loop (lines 67-84): the assignments
whose `course_id` equals the course's id, each given `course_title` from
the course. -/
def fetchCourseAssignments (store : Store) (c : Course) : List TitledAssignment :=
  (store.assignments.filter (fun a => a.course_id = c.id)).map
    (fun a => { base := a, course_title := c.title })

/-- The enrichment loop over the course scope, accumulating one flat list;
a failing per-course query throws out of the loop. -/
def enrichAssignments (store : Store) (fails : FetchOp → Bool) :
    List Course → Except Unit (List TitledAssignment)
  | [] => .ok []
  | c :: cs =>
    if fails (.assignmentsFetch c.id) then .error ()
    else
      match enrichAssignments store fails cs with
      | .error e => .error e
      | .ok rest => .ok (fetchCourseAssignments store c ++ rest)

/-- Lines 89-104: the number of submissions whose `assignment_id` equals
the given assignment id. -/
def countSubmissions (store : Store) (aid : String) : Nat :=
  (store.submissions.filter (fun s => s.assignment_id = aid)).length

/-- The submission-counting loop (lines 87-105); a failing per-assignment
query throws out of the loop. -/
def countAll (store : Store) (fails : FetchOp → Bool) :
    List TitledAssignment → Except Unit (List EnrichedAssignment)
  | [] => .ok []
  | t :: ts =>
    if fails (.submissionsFetch t.base.id) then .error ()
    else
      match countAll store fails ts with
      | .error e => .error e
      | .ok rest =>
        .ok ({ base := t.base, course_title := t.course_title,
               submissions_count := countSubmissions store t.base.id } :: rest)

/-- The sort key of lines 108-110: `new Date(x.created_at || 0).getTime()`,
so a missing `created_at` is read as the epoch. -/
def createdKey (e : EnrichedAssignment) : Nat :=
  e.base.created_at.getD 0

/-- Lines 107-110: `sort((a, b) => key b - key a)` is the stable
(ECMAScript 2019 `Array.prototype.sort`) descending sort by `createdKey`;
`List.insertionSort` with `createdKey a ≥ createdKey b` is exactly that
stable descending sort. -/
def sortByCreatedDesc (l : List EnrichedAssignment) : List EnrichedAssignment :=
  l.insertionSort (fun a b => createdKey b ≤ createdKey a)

/-- `fetchData` (lines 38-119).  Returns the component state after the run
together with the toast it raised, if any.  The guard `!user?.id`
(line 39) is true when the user is absent or its id is the empty string.
State-update order matters: `setCourses` (line 63) runs before the
assignment loop, so a later failure leaves the fresh course list in
place; `setAssignments` (line 112) runs only when every fetch succeeded;
`setIsLoading(false)` runs in `finally`. -/
def fetchData (user : Option User) (store : Store) (fails : FetchOp → Bool)
    (st : ComponentState) : ComponentState × Option Notice :=
  match user with
  | none => ({ st with isLoading := false }, none)
  | some u =>
    if u.id = "" then
      ({ st with isLoading := false }, none)
    else if fails .coursesFetch then
      ({ st with isLoading := false }, some .loadError)
    else
      let coursesData := courseScope u store
      let st1 := { st with courses := coursesData }
      match enrichAssignments store fails coursesData with
      | .error _ => ({ st1 with isLoading := false }, some .loadError)
      | .ok titled =>
        match countAll store fails titled with
        | .error _ => ({ st1 with isLoading := false }, some .loadError)
        | .ok enriched =>
          ({ st1 with assignments := sortByCreatedDesc enriched,
                      isLoading := false }, none)

/-- The creation-form state (lines 28-34); `due_date` is a date string in
the source, modelled like the record field. -/
structure NewAssignment where
  title : String
  description : String
  course_id : String
  due_date : Option Nat
  points : Int
deriving DecidableEq

/-- The initial form value (lines 28-34 and the reset at lines 145-151). -/
def initialNewAssignment : NewAssignment :=
  { title := "", description := "", course_id := "", due_date := none,
    points := 100 }

/-- How `handleCreateAssignment` ended. -/
inductive CreateOutcome where
  | validationFailed
  | transportFailed
  | created
deriving DecidableEq

/-- The observable result of `handleCreateAssignment`: the store after the
call, how the call ended, whether the full-page reload (line 154) ran, the
form state, and whether the dialog is still open. -/
structure CreateResult where
  store : Store
  outcome : CreateOutcome
  reloaded : Bool
  form : NewAssignment
  dialogOpen : Bool
deriving DecidableEq

/-- JavaScript `parseInt` on a decimal string: an optional sign followed by
the longest digit prefix; `none` models `NaN`. -/
def jsParseInt (s : String) : Option Int :=
  let fromDigits : List Char → Option Nat := fun cs =>
    let ds := cs.takeWhile Char.isDigit
    if ds.isEmpty then none
    else some (ds.foldl (fun n c => n * 10 + (c.toNat - 48)) 0)
  match s.data with
  | '-' :: rest => (fromDigits rest).map (fun n => -(n : Int))
  | '+' :: rest => (fromDigits rest).map (fun n => (n : Int))
  | cs => (fromDigits cs).map (fun n => (n : Int))

/-- `handlePointsChange` (lines 169-175): `parseInt(e.target.value) || 0`
stored into the form without any clamping to the input's `min`/`max`. -/
def handlePointsChange (value : String) (na : NewAssignment) : NewAssignment :=
  { na with points := (jsParseInt value).getD 0 }

/-- `handleCreateAssignment` (lines 124-159).  `now` is the timestamp of
`new Date().toISOString()`, `freshId` the key generated by `push`,
`pushFails` whether the `push` throws.  Validation (line 126) rejects an
empty `title` or `course_id` before any store access; on success the
record is appended, the dialog closes, the form resets, and the page
reloads; a throwing `push` is caught and reported. -/
def handleCreateAssignment (now : Nat) (userId freshId : String)
    (pushFails : Bool) (na : NewAssignment) (store : Store) : CreateResult :=
  if na.title = "" ∨ na.course_id = "" then
    { store := store, outcome := .validationFailed, reloaded := false,
      form := na, dialogOpen := true }
  else if pushFails then
    { store := store, outcome := .transportFailed, reloaded := false,
      form := na, dialogOpen := true }
  else
    let record : Assignment :=
      { id := freshId, title := na.title, description := na.description,
        course_id := na.course_id, due_date := na.due_date,
        points := na.points, created_at := some now, created_by := userId }
    { store := { store with assignments := store.assignments ++ [record] },
      outcome := .created, reloaded := true,
      form := initialNewAssignment, dialogOpen := false }

/-- Firebase `remove(ref(database, "assignments/" ++ id))`: drop the
record with that key; nothing else in the store is touched. -/
def removeAssignment (store : Store) (aid : String) : Store :=
  { store with assignments := store.assignments.filter (fun a => a.id ≠ aid) }

/-- `handleDeleteAssignment` (lines 177-191).  `confirmed` is the result
of the `confirm` dialog, `removeFails` whether the `remove` call throws.
After a successful remove the in-memory list is filtered by id locally
(line 184); no refetch happens.  Returns the store, the component state
and the toast, if any. -/
def handleDeleteAssignment (confirmed removeFails : Bool) (aid : String)
    (store : Store) (st : ComponentState) :
    Store × ComponentState × Option Notice :=
  if ¬ confirmed then
    (store, st, none)
  else if removeFails then
    (store, st, some .deleteError)
  else
    (removeAssignment store aid,
     { st with assignments := st.assignments.filter (fun e => e.base.id ≠ aid) },
     some .deleteSuccess)

/-- Lines 303-306: `isDueDatePassed = a.due_date && new Date(a.due_date) < new Date()`;
a falsy `due_date` makes the conjunction falsy. -/
def isDueDatePassed (now : Nat) (e : EnrichedAssignment) : Bool :=
  match e.base.due_date with
  | none => false
  | some d => decide (d < now)

/-- The "Active Assignments" derived view (lines 303-306):
`assignments.filter(a => !isDueDatePassed)`. -/
def activeAssignments (now : Nat) (l : List EnrichedAssignment) :
    List EnrichedAssignment :=
  l.filter (fun e => ! isDueDatePassed now e)

/-! ### Concrete scenario from the specification

Two courses (C1 owned by teacher U1, C2 owned by teacher U2) and three
assignments (A1 and A3 in C1, A2 in C2). -/

/-- Course C1, owned by teacher U1. -/
def courseC1 : Course :=
  { id := "c1", title := "Course One", instructor_id := "u1" }

/-- Course C2, owned by teacher U2. -/
def courseC2 : Course :=
  { id := "c2", title := "Course Two", instructor_id := "u2" }

/-- Assignment A1, in course C1, created last. -/
def assignmentA1 : Assignment :=
  { id := "a1", title := "A1", description := "", course_id := "c1",
    due_date := none, points := 100, created_at := some 300,
    created_by := "u1" }

/-- Assignment A2, in course C2. -/
def assignmentA2 : Assignment :=
  { id := "a2", title := "A2", description := "", course_id := "c2",
    due_date := none, points := 100, created_at := some 200,
    created_by := "u2" }

/-- Assignment A3, in course C1, created first. -/
def assignmentA3 : Assignment :=
  { id := "a3", title := "A3", description := "", course_id := "c1",
    due_date := none, points := 100, created_at := some 100,
    created_by := "u1" }

/-- The scenario store. -/
def scenarioStore : Store :=
  { courses := [courseC1, courseC2],
    assignments := [assignmentA1, assignmentA2, assignmentA3],
    submissions := [] }

/-- Teacher U1, the acting user of the scenario. -/
def teacherU1 : User := { id := "u1", role := "teacher" }

/-- The failure oracle of a run where every fetch succeeds. -/
def noFails : FetchOp → Bool := fun _ => false

/-- A failure oracle where the per-course assignment queries throw and
everything else succeeds. -/
def failAssignmentsFetch : FetchOp → Bool
  | .assignmentsFetch _ => true
  | _ => false

/-- A sample enriched assignment with a missing `created_at`. -/
def enrichedMissing : EnrichedAssignment :=
  { base := { id := "m0", title := "M", description := "", course_id := "c1",
              due_date := none, points := 10, created_at := none,
              created_by := "u1" },
    course_title := "Course One", submissions_count := 0 }

/-- A sample enriched assignment created at time 100. -/
def enrichedAt100 : EnrichedAssignment :=
  { base := assignmentA3, course_title := "Course One",
    submissions_count := 0 }

/-- A sample enriched assignment created at time 300. -/
def enrichedAt300 : EnrichedAssignment :=
  { base := assignmentA1, course_title := "Course One",
    submissions_count := 0 }

/-- A sample loaded component state: the result of the scenario run as
teacher U1. -/
def scenarioState : ComponentState :=
  { assignments := [enrichedAt300, enrichedAt100],
    courses := [courseC1], isLoading := false }

/-! ### Helper lemmas about the pipeline stages -/

/-- Membership in one course's fetched-and-titled assignment list. -/
theorem mem_fetchCourseAssignments {store : Store} {c : Course}
    {t : TitledAssignment} :
    t ∈ fetchCourseAssignments store c ↔
      t.base ∈ store.assignments ∧ t.base.course_id = c.id ∧
        t.course_title = c.title := by
  unfold fetchCourseAssignments
  constructor
  · intro h
    rcases List.mem_map.mp h with ⟨a, ha, rfl⟩
    rcases List.mem_filter.mp ha with ⟨hmem, hcid⟩
    exact ⟨hmem, by simpa using hcid, rfl⟩
  · rintro ⟨hmem, hcid, htitle⟩
    refine List.mem_map.mpr ⟨t.base, List.mem_filter.mpr ⟨hmem, by simpa using hcid⟩, ?_⟩
    cases t
    simp_all

/-- A successful enrichment loop returns the per-course lists joined in
course order. -/
theorem enrichAssignments_ok_eq {store : Store} {fails : FetchOp → Bool} :
    ∀ {cs : List Course} {ts : List TitledAssignment},
      enrichAssignments store fails cs = .ok ts →
      ts = (cs.map (fetchCourseAssignments store)).flatten
  | [], ts, h => by
    simpa [enrichAssignments] using h.symm
  | c :: cs, ts, h => by
    unfold enrichAssignments at h
    by_cases hf : fails (.assignmentsFetch c.id)
    · simp [hf] at h
    · simp only [hf, if_false, Bool.false_eq_true] at h
      cases hrec : enrichAssignments store fails cs with
      | error e => rw [hrec] at h; cases h
      | ok rest =>
        rw [hrec] at h
        cases h
        simp [List.map_cons, List.flatten, enrichAssignments_ok_eq hrec]

/-- Membership characterisation of a successful enrichment loop: exactly
the assignments whose `course_id` matches some course in scope, titled by
that course. -/
theorem enrichAssignments_ok_mem {store : Store} {fails : FetchOp → Bool}
    {cs : List Course} {ts : List TitledAssignment}
    (h : enrichAssignments store fails cs = .ok ts) (t : TitledAssignment) :
    t ∈ ts ↔ ∃ c ∈ cs, t.base ∈ store.assignments ∧
      t.base.course_id = c.id ∧ t.course_title = c.title := by
  rw [enrichAssignments_ok_eq h]
  simp only [List.mem_flatten, List.mem_map]
  constructor
  · rintro ⟨l, ⟨c, hc, rfl⟩, ht⟩
    exact ⟨c, hc, mem_fetchCourseAssignments.mp ht⟩
  · rintro ⟨c, hc, hprops⟩
    exact ⟨fetchCourseAssignments store c, ⟨c, hc, rfl⟩,
      mem_fetchCourseAssignments.mpr hprops⟩

/-- A successful counting loop keeps each record and its title, attaching
the submission count. -/
theorem countAll_ok_mem {store : Store} {fails : FetchOp → Bool} :
    ∀ {ts : List TitledAssignment} {es : List EnrichedAssignment},
      countAll store fails ts = .ok es → ∀ e ∈ es,
        ∃ t ∈ ts, e.base = t.base ∧ e.course_title = t.course_title ∧
          e.submissions_count = countSubmissions store t.base.id
  | [], es, h => by
    intro e he
    simp only [countAll] at h
    cases h
    cases he
  | t :: ts, es, h => by
    intro e he
    unfold countAll at h
    by_cases hf : fails (.submissionsFetch t.base.id)
    · simp [hf] at h
    · simp only [hf, if_false, Bool.false_eq_true] at h
      cases hrec : countAll store fails ts with
      | error e0 => rw [hrec] at h; cases h
      | ok rest =>
        rw [hrec] at h
        cases h
        cases he with
        | head => exact ⟨t, List.mem_cons_self t ts, rfl, rfl, rfl⟩
        | tail _ htl =>
          rcases countAll_ok_mem hrec e htl with ⟨t0, ht0, hprops⟩
          exact ⟨t0, List.mem_cons_of_mem t ht0, hprops⟩

/-- Sorting does not change the members of the list. -/
theorem mem_sortByCreatedDesc {l : List EnrichedAssignment}
    {e : EnrichedAssignment} : e ∈ sortByCreatedDesc l ↔ e ∈ l :=
  List.mem_insertionSort _

/-- A successful run of `fetchData` with a present user id resolves the
course scope, sets it, and sets the sorted enrichment of the counted
assignment lists. -/
theorem fetchData_ok_shape {u : User} {store : Store} {fails : FetchOp → Bool}
    {st st' : ComponentState} (hid : u.id ≠ "")
    (hrun : fetchData (some u) store fails st = (st', none)) :
    ∃ titled enriched,
      enrichAssignments store fails (courseScope u store) = .ok titled ∧
      countAll store fails titled = .ok enriched ∧
      st' = { st with courses := courseScope u store,
                      assignments := sortByCreatedDesc enriched,
                      isLoading := false } := by
  simp only [fetchData] at hrun
  rw [if_neg hid] at hrun
  split at hrun
  · exact Option.noConfusion (congrArg Prod.snd hrun)
  · split at hrun
    · exact Option.noConfusion (congrArg Prod.snd hrun)
    · rename_i titled henr
      split at hrun
      · exact Option.noConfusion (congrArg Prod.snd hrun)
      · rename_i enriched hcnt
        exact ⟨titled, enriched, henr, hcnt, (congrArg Prod.fst hrun).symm⟩

/-! ### The claims -/

/-- C1: for an acting user with a present id, the resolved course scope is
exactly the courses whose `instructor_id` equals the user's id when the
role is "teacher" and the whole course collection for every other role,
and every enriched assignment stored by a successful pipeline run
references a course of that scope — a teacher is never shown an
assignment whose course they do not own. -/
theorem claim1_scope_confinement (u : User) (store : Store)
    (fails : FetchOp → Bool) (st st' : ComponentState)
    (hid : u.id ≠ "")
    (hrun : fetchData (some u) store fails st = (st', none)) :
    (u.role = "teacher" →
      courseScope u store
        = store.courses.filter (fun c => c.instructor_id = u.id)) ∧
    (u.role ≠ "teacher" → courseScope u store = store.courses) ∧
    ∀ e ∈ st'.assignments, ∃ c ∈ courseScope u store,
      e.base.course_id = c.id := by
  refine ⟨fun h => by simp [courseScope, h], fun h => by simp [courseScope, h], ?_⟩
  rcases fetchData_ok_shape hid hrun with ⟨titled, enriched, henr, hcnt, rfl⟩
  intro e he
  have he2 : e ∈ enriched := mem_sortByCreatedDesc.mp he
  rcases countAll_ok_mem hcnt e he2 with ⟨t, ht, hbase, -, -⟩
  rcases (enrichAssignments_ok_mem henr t).mp ht with ⟨c, hc, -, hcid, -⟩
  exact ⟨c, hc, by rw [hbase]; exact hcid⟩

/-- Witness for C1: the scenario run as teacher U1 satisfies the scope
characterisation. -/
theorem claim1_scope_confinement_witness :
    courseScope teacherU1 scenarioStore
      = scenarioStore.courses.filter
          (fun c => c.instructor_id = teacherU1.id) :=
  (claim1_scope_confinement teacherU1 scenarioStore noFails
      initialComponentState
      { assignments := [⟨assignmentA1, "Course One", 0⟩,
                        ⟨assignmentA3, "Course One", 0⟩],
        courses := [courseC1], isLoading := false }
      (by decide) (by decide)).1 rfl

/-- C2: a successful enrichment stage returns, for each course in scope
in order, exactly the assignments whose `course_id` equals that course's
id, each carrying `course_title` from its parent course, joined into one
flat list; in the two-teacher scenario, acting as U1 yields exactly A1
and A3 titled by C1, and A2 is absent. -/
theorem claim2_enrichment :
    (∀ (store : Store) (fails : FetchOp → Bool) (cs : List Course)
        (ts : List TitledAssignment),
      enrichAssignments store fails cs = .ok ts →
        ts = (cs.map (fetchCourseAssignments store)).flatten ∧
        ∀ t, t ∈ ts ↔ ∃ c ∈ cs, t.base ∈ store.assignments ∧
          t.base.course_id = c.id ∧ t.course_title = c.title) ∧
    fetchData (some teacherU1) scenarioStore noFails initialComponentState
      = ({ assignments := [⟨assignmentA1, "Course One", 0⟩,
                           ⟨assignmentA3, "Course One", 0⟩],
           courses := [courseC1], isLoading := false }, none) :=
  ⟨fun _ _ _ _ h =>
    ⟨enrichAssignments_ok_eq h, fun t => enrichAssignments_ok_mem h t⟩,
   by decide⟩

/-- Witness for C2: the enrichment equation evaluated on the scenario
scope of teacher U1. -/
theorem claim2_enrichment_witness :
    ([⟨assignmentA1, "Course One"⟩, ⟨assignmentA3, "Course One"⟩]
        : List TitledAssignment)
      = ([courseC1].map (fetchCourseAssignments scenarioStore)).flatten :=
  (claim2_enrichment.1 scenarioStore noFails [courseC1]
      [⟨assignmentA1, "Course One"⟩, ⟨assignmentA3, "Course One"⟩]
      (by rfl)).1

/-- C3: the final list is a permutation of its input sorted descending by
`created_at` with a missing `created_at` read as the epoch; on records
created at T2 > T1 > 0 and one missing timestamp, the output order is
[T2, T1, missing]. -/
theorem claim3_sort_descending :
    (∀ l : List EnrichedAssignment,
      List.Perm (sortByCreatedDesc l) l ∧
      List.Pairwise (fun a b => createdKey b ≤ createdKey a)
        (sortByCreatedDesc l)) ∧
    ∀ (t1 t2 : Nat) (e0 e1 e2 : EnrichedAssignment),
      0 < t1 → t1 < t2 →
      e0.base.created_at = none → e1.base.created_at = some t1 →
      e2.base.created_at = some t2 →
      sortByCreatedDesc [e0, e1, e2] = [e2, e1, e0] := by
  constructor
  · intro l
    refine ⟨List.perm_insertionSort _ l, ?_⟩
    haveI : IsTotal EnrichedAssignment
        (fun a b => createdKey b ≤ createdKey a) :=
      ⟨fun a b => Nat.le_total (createdKey b) (createdKey a)⟩
    haveI : IsTrans EnrichedAssignment
        (fun a b => createdKey b ≤ createdKey a) :=
      ⟨fun _ _ _ hab hbc => Nat.le_trans hbc hab⟩
    exact List.sorted_insertionSort _ l
  · intro t1 t2 e0 e1 e2 h1 h12 h0 he1 he2
    have k0 : createdKey e0 = 0 := by simp [createdKey, h0]
    have k1 : createdKey e1 = t1 := by simp [createdKey, he1]
    have k2 : createdKey e2 = t2 := by simp [createdKey, he2]
    simp [sortByCreatedDesc, List.insertionSort, List.orderedInsert,
      k0, k1, k2, Nat.not_le.mpr h12, Nat.not_le.mpr (Nat.lt_trans h1 h12),
      Nat.not_le.mpr h1]

/-- Witness for C3: sorting the sample records created at 300, 100 and
with a missing timestamp. -/
theorem claim3_sort_descending_witness :
    sortByCreatedDesc [enrichedMissing, enrichedAt100, enrichedAt300]
      = [enrichedAt300, enrichedAt100, enrichedMissing] :=
  claim3_sort_descending.2 100 300 enrichedMissing enrichedAt100
    enrichedAt300 (by decide) (by decide) (by decide) (by decide) (by decide)

/-- C4: creation fails validation exactly when `title` or `course_id` is
empty, in which case it reports the failure and leaves the store (and the
form) untouched; on success it appends one record stamped with
`created_at = now` and `created_by` = the acting user's id and triggers
the full reload instead of a local insert. -/
theorem claim4_create_validation (now : Nat) (userId freshId : String)
    (pushFails : Bool) (na : NewAssignment) (store : Store) :
    ((handleCreateAssignment now userId freshId pushFails na store).outcome
        = CreateOutcome.validationFailed
      ↔ (na.title = "" ∨ na.course_id = "")) ∧
    ((na.title = "" ∨ na.course_id = "") →
      handleCreateAssignment now userId freshId pushFails na store
        = { store := store, outcome := .validationFailed, reloaded := false,
            form := na, dialogOpen := true }) ∧
    ((handleCreateAssignment now userId freshId pushFails na store).outcome
        = CreateOutcome.created →
      (handleCreateAssignment now userId freshId pushFails na store).store.assignments
        = store.assignments ++
            [{ id := freshId, title := na.title, description := na.description,
               course_id := na.course_id, due_date := na.due_date,
               points := na.points, created_at := some now,
               created_by := userId }] ∧
      (handleCreateAssignment now userId freshId pushFails na store).reloaded
        = true) := by
  by_cases hv : na.title = "" ∨ na.course_id = ""
  · simp [handleCreateAssignment, hv]
  · by_cases hp : pushFails
    · simp [handleCreateAssignment, hv, hp]
    · simp [handleCreateAssignment, hv, hp]

/-- Witness for C4: creating with an empty title and a non-empty course
reports the validation failure and mutates nothing. -/
theorem claim4_create_validation_witness :
    handleCreateAssignment 5 "u1" "k1" false
        { title := "", description := "", course_id := "c1",
          due_date := none, points := 100 } scenarioStore
      = { store := scenarioStore, outcome := .validationFailed,
          reloaded := false,
          form := { title := "", description := "", course_id := "c1",
                    due_date := none, points := 100 },
          dialogOpen := true } :=
  (claim4_create_validation 5 "u1" "k1" false
      { title := "", description := "", course_id := "c1",
        due_date := none, points := 100 } scenarioStore).2.1 (Or.inl rfl)

/-- C5 counterexample: with teacher U1 over the scenario store, failing
the per-course assignment query yields the error notification, yet the
course state has already been replaced by the freshly fetched scope —
the previously-loaded course state is NOT left untouched and partial
course state from the failed run is visible. -/
theorem claim5_counterexample :
    (fetchData (some teacherU1) scenarioStore failAssignmentsFetch
        initialComponentState).2 = some Notice.loadError ∧
    (fetchData (some teacherU1) scenarioStore failAssignmentsFetch
        initialComponentState).1.courses ≠ initialComponentState.courses := by
  decide

/-- C5 amended: a caught fetch failure surfaces the error notification,
ends loading and leaves the assignments sequence untouched; the course
list is untouched only when the course fetch itself failed — when a
later stage failed, the freshly resolved course scope has already been
stored. -/
theorem claim5_failure_handling (u : User) (store : Store)
    (fails : FetchOp → Bool) (st st' : ComponentState) (n : Option Notice)
    (hrun : fetchData (some u) store fails st = (st', n))
    (herr : n = some Notice.loadError) :
    st'.assignments = st.assignments ∧ st'.isLoading = false ∧
    (st'.courses = st.courses ∨ st'.courses = courseScope u store) ∧
    (fails .coursesFetch = true → st'.courses = st.courses) := by
  subst herr
  simp only [fetchData] at hrun
  by_cases hid : u.id = ""
  · rw [if_pos hid] at hrun
    exact absurd (congrArg Prod.snd hrun) (by simp)
  · rw [if_neg hid] at hrun
    split at hrun
    · rename_i hc
      have h1 : ({ st with isLoading := false } : ComponentState) = st' :=
        congrArg Prod.fst hrun
      subst h1
      exact ⟨rfl, rfl, Or.inl rfl, fun _ => rfl⟩
    · rename_i hc
      split at hrun
      · have h1 : ({ assignments := st.assignments, courses := courseScope u store, isLoading := false } : ComponentState) = st' :=
          congrArg Prod.fst hrun
        subst h1
        exact ⟨rfl, rfl, Or.inr rfl, fun hcc => absurd hcc hc⟩
      · split at hrun
        · have h1 : ({ assignments := st.assignments, courses := courseScope u store, isLoading := false } : ComponentState) = st' :=
            congrArg Prod.fst hrun
          subst h1
          exact ⟨rfl, rfl, Or.inr rfl, fun hcc => absurd hcc hc⟩
        · exact absurd (congrArg Prod.snd hrun) (by simp)

/-- Witness for the amended C5: the failing scenario run keeps the empty
assignments sequence, ends loading, and stores the fresh course scope. -/
theorem claim5_failure_handling_witness :
    ({ assignments := [], courses := [courseC1], isLoading := false }
        : ComponentState).assignments = initialComponentState.assignments ∧
    ({ assignments := [], courses := [courseC1], isLoading := false }
        : ComponentState).isLoading = false ∧
    (({ assignments := [], courses := [courseC1], isLoading := false }
        : ComponentState).courses = initialComponentState.courses ∨
     ({ assignments := [], courses := [courseC1], isLoading := false }
        : ComponentState).courses = courseScope teacherU1 scenarioStore) ∧
    (failAssignmentsFetch .coursesFetch = true →
      ({ assignments := [], courses := [courseC1], isLoading := false }
          : ComponentState).courses = initialComponentState.courses) :=
  claim5_failure_handling teacherU1 scenarioStore failAssignmentsFetch
    initialComponentState
    { assignments := [], courses := [courseC1], isLoading := false }
    (some Notice.loadError) (by decide) rfl

/-- C6: a confirmed, successful delete removes exactly the record with
the given id from the store and filters exactly that id out of the
in-memory sequence, keeping every other assignment unmodified and in its
original relative order, touching no other collection and no unrelated
assignment, and reporting success; without confirmation nothing at all
happens. -/
theorem claim6_delete_frame (aid : String) (store : Store)
    (st : ComponentState) :
    (handleDeleteAssignment true false aid store st).1.assignments
        = store.assignments.filter (fun a => a.id ≠ aid) ∧
    (handleDeleteAssignment true false aid store st).1.courses
        = store.courses ∧
    (handleDeleteAssignment true false aid store st).1.submissions
        = store.submissions ∧
    (handleDeleteAssignment true false aid store st).2.1.assignments
        = st.assignments.filter (fun e => e.base.id ≠ aid) ∧
    List.Sublist ((handleDeleteAssignment true false aid store st).2.1.assignments)
        st.assignments ∧
    (∀ e ∈ st.assignments, e.base.id ≠ aid →
        e ∈ (handleDeleteAssignment true false aid store st).2.1.assignments) ∧
    (∀ e ∈ (handleDeleteAssignment true false aid store st).2.1.assignments,
        e ∈ st.assignments ∧ e.base.id ≠ aid) ∧
    (∀ a ∈ store.assignments, a.id ≠ aid →
        a ∈ (handleDeleteAssignment true false aid store st).1.assignments) ∧
    (handleDeleteAssignment true false aid store st).2.1.courses
        = st.courses ∧
    (handleDeleteAssignment true false aid store st).2.2
        = some Notice.deleteSuccess ∧
    ∀ rf, handleDeleteAssignment false rf aid store st = (store, st, none) := by
  have hd : handleDeleteAssignment true false aid store st
      = ({ store with
             assignments := store.assignments.filter (fun a => a.id ≠ aid) },
         { st with
             assignments := st.assignments.filter (fun e => e.base.id ≠ aid) },
         some Notice.deleteSuccess) := by
    simp [handleDeleteAssignment, removeAssignment]
  rw [hd]
  refine ⟨rfl, rfl, rfl, rfl, List.filter_sublist _, ?_, ?_, ?_, rfl, rfl,
    fun rf => by simp [handleDeleteAssignment]⟩
  · intro e he hne
    exact List.mem_filter.mpr ⟨he, by simpa using hne⟩
  · intro e he
    rcases List.mem_filter.mp he with ⟨h1, h2⟩
    exact ⟨h1, by simpa using h2⟩
  · intro a ha hne
    exact List.mem_filter.mpr ⟨ha, by simpa using hne⟩

/-- Witness for C6: deleting "a1" from the loaded scenario state keeps
exactly the other enriched record. -/
theorem claim6_delete_frame_witness :
    (handleDeleteAssignment true false "a1" scenarioStore
        scenarioState).2.1.assignments = [enrichedAt100] := by
  rw [(claim6_delete_frame "a1" scenarioStore scenarioState).2.2.2.1]
  decide

/-- C7: the Active view keeps exactly the assignments whose `due_date`
is absent or not earlier than now; a past due date is excluded, a
missing one included. -/
theorem claim7_active_filter (now : Nat) (l : List EnrichedAssignment)
    (e : EnrichedAssignment) :
    e ∈ activeAssignments now l ↔
      e ∈ l ∧ (e.base.due_date = none ∨
        ∃ d, e.base.due_date = some d ∧ now ≤ d) := by
  rw [activeAssignments, List.mem_filter]
  apply and_congr_right
  intro _
  cases hdd : e.base.due_date with
  | none => simp [isDueDatePassed, hdd]
  | some d => simp [isDueDatePassed, hdd, Nat.not_lt]

/-- Witness for C7: a record without a due date is in the Active view. -/
theorem claim7_active_filter_witness :
    enrichedMissing ∈ activeAssignments 5 [enrichedMissing] :=
  (claim7_active_filter 5 [enrichedMissing] enrichedMissing).mpr
    ⟨by decide, Or.inl (by decide)⟩

/-- C8 evidence: entering "5000" in the points field and creating with a
non-empty title and course appends a record whose points lie outside
1..1000, and an unparsable points entry is stored as 0 — the handler
never clamps to the input's declared min/max. -/
theorem claim8_points_range_evidence :
    (handleCreateAssignment 7 "u1" "k9" false
        (handlePointsChange "5000"
          { initialNewAssignment with title := "T", course_id := "c1" })
        scenarioStore).outcome = CreateOutcome.created ∧
    (∃ a ∈ (handleCreateAssignment 7 "u1" "k9" false
        (handlePointsChange "5000"
          { initialNewAssignment with title := "T", course_id := "c1" })
        scenarioStore).store.assignments,
      a.points = 5000 ∧ ¬ (1 ≤ a.points ∧ a.points ≤ 1000)) ∧
    (handlePointsChange "abc" initialNewAssignment).points = 0 := by
  decide

/-- C9: with an absent user id the pipeline short-circuits independently
of the store and of any failure, changes nothing but the loading flag,
and raises no notification; from the initial mount state the result is
empty. -/
theorem claim9_short_circuit (store : Store) (fails : FetchOp → Bool)
    (st : ComponentState) :
    fetchData none store fails st = ({ st with isLoading := false }, none) ∧
    (∀ u : User, u.id = "" →
      fetchData (some u) store fails st
        = ({ st with isLoading := false }, none)) ∧
    fetchData none store fails initialComponentState
      = ({ assignments := [], courses := [], isLoading := false }, none) := by
  refine ⟨rfl, fun u h => ?_, rfl⟩
  simp [fetchData, h]

/-- Witness for C9: a user whose id is the empty string gets the empty
result on the initial state, with no error. -/
theorem claim9_short_circuit_witness :
    fetchData (some { id := "", role := "teacher" }) scenarioStore noFails
        initialComponentState
      = ({ assignments := [], courses := [], isLoading := false }, none) :=
  (claim9_short_circuit scenarioStore noFails initialComponentState).2.1
    { id := "", role := "teacher" } rfl

/-- C10: a confirmed delete of an id absent from the in-memory sequence
leaves the sequence exactly as it was, still reports success, and — when
the id is also absent remotely — leaves the store untouched: no
existence check guards the removal or the filter. -/
theorem claim10_delete_absent_id (aid : String) (store : Store)
    (st : ComponentState)
    (habs : ∀ e ∈ st.assignments, e.base.id ≠ aid) :
    (handleDeleteAssignment true false aid store st).2.1.assignments
        = st.assignments ∧
    (handleDeleteAssignment true false aid store st).2.2
        = some Notice.deleteSuccess ∧
    ((∀ a ∈ store.assignments, a.id ≠ aid) →
      (handleDeleteAssignment true false aid store st).1 = store) := by
  have hd : handleDeleteAssignment true false aid store st
      = ({ store with
             assignments := store.assignments.filter (fun a => a.id ≠ aid) },
         { st with
             assignments := st.assignments.filter (fun e => e.base.id ≠ aid) },
         some Notice.deleteSuccess) := by
    simp [handleDeleteAssignment, removeAssignment]
  rw [hd]
  refine ⟨?_, rfl, ?_⟩
  · exact List.filter_eq_self.mpr (fun e he => by simpa using habs e he)
  · intro hstore
    have h2 : store.assignments.filter (fun a => a.id ≠ aid)
        = store.assignments :=
      List.filter_eq_self.mpr (fun a ha => by simpa using hstore a ha)
    rw [h2]

/-- Witness for C10: deleting the unknown id "zz" from the loaded
scenario state is a no-op on the sequence yet reports success. -/
theorem claim10_delete_absent_id_witness :
    (handleDeleteAssignment true false "zz" scenarioStore
        scenarioState).2.1.assignments = scenarioState.assignments ∧
    (handleDeleteAssignment true false "zz" scenarioStore
        scenarioState).2.2 = some Notice.deleteSuccess :=
  ⟨(claim10_delete_absent_id "zz" scenarioStore scenarioState (by decide)).1,
   (claim10_delete_absent_id "zz" scenarioStore scenarioState (by decide)).2.1⟩
